import Mathlib

/-!
Verification of the case-line-to-time-series normalization and multi-level
aggregation pipeline of this repository, as implemented by
`src/pipelines/epidemiology/ph_authority.py`,
`src/pipelines/vaccinations/br_authority.py` and
`src/pipelines/vaccinations/br_covid19br.py`.

Tabular data is embedded as lists of structures, one structure per pandas
row; nullable cells are `Option`-valued. pandas `groupby(...).sum()` is
embedded as deduplicated key extraction plus a per-key sum, which matches
pandas' default behaviour of dropping rows whose group key is null and of
treating a missing count as zero in sums. Library helpers of this
repository that live outside the staged sources (`lib/time`, `lib/cast`,
`lib/utils`, `lib/case_line`) are modelled from the specification and are
marked as such in their doc comments.
-/

/-! ## String primitives

Python (and pandas) compare strings lexicographically by code point; these
char-list functions embed that order executably. -/

/-- Lexicographic order on char lists, as Python compares strings. -/
def charListLt : List Char → List Char → Bool
  | [], [] => false
  | [], _ :: _ => true
  | _ :: _, [] => false
  | a :: as, b :: bs => if a < b then true else if b < a then false else charListLt as bs

/-- Python `a < b` on strings. -/
def pyStrLt (a b : String) : Bool := charListLt a.data b.data

/-- Python `a <= b` on strings (total order, so the negation of `b < a`). -/
def pyStrLe (a b : String) : Bool := !(pyStrLt b a)

/-- Chars of `s` up to (excluding) the first occurrence of the char sequence
`sep`; all of `s` when `sep` does not occur. -/
def takeUntilSeq (sep : List Char) : List Char → List Char
  | [] => []
  | c :: rest => if sep.isPrefixOf (c :: rest) then [] else c :: takeUntilSeq sep rest

/-- Python `s.split(sep)[-1]`: the suffix of `s` after the last occurrence of
`sep` (all of `s` when `sep` does not occur). Computed on the reversed char
list; `": "` cannot overlap itself, so first-occurrence-in-reverse is the
last occurrence. -/
def pySplitLast (sep : String) (s : String) : String :=
  ⟨(takeUntilSeq sep.data.reverse s.data.reverse).reverse⟩

/-- Shape check for an ISO `YYYY-MM-DD` date string: ten chars, digits and
dashes in the right places. -/
def matchesISO (s : String) : Bool :=
  match s.data with
  | [y1, y2, y3, y4, '-', m1, m2, '-', d1, d2] =>
    y1.isDigit && y2.isDigit && y3.isDigit && y4.isDigit &&
      m1.isDigit && m2.isDigit && d1.isDigit && d2.isDigit
  | _ => false

/-! ## Philippines adapter: column-normalized case records

`PhilippinesDataSource.parse_dataframes` (ph_authority.py lines 57-73)
renames the raw columns to the canonical names below; fields whose source
name starts with `_` are internal-only. One `PhRawRow` is one renamed case
record. -/

structure PhRawRow where
  province : Option String
  region : Option String
  city : Option String
  date_new_deceased : Option String
  date_new_confirmed : Option String
  date_new_recovered : Option String
  date_estimate : Option String
  hospitalized : Option String
  prognosis : Option String
  age : Option String
  sex : Option String
deriving DecidableEq

/-- A case record after derived-field estimation, sex renaming, dropping the
`_`-prefixed internal columns and the NCR city fix (ph_authority.py lines
75-106): the `city` column and the internal fields are gone and
`date_new_hospitalized` has been derived. -/
structure PhCaseRow where
  province : Option String
  region : Option String
  date_new_deceased : Option String
  date_new_confirmed : Option String
  date_new_recovered : Option String
  date_new_hospitalized : Option String
  age : Option String
  sex : Option String
deriving DecidableEq

/-- Python `str.lower`, char by char. -/
def pyLower (s : String) : String := ⟨s.data.map Char.toLower⟩

/-- ph_authority.py lines 75-106, one record at a time:
line 76 fills a missing confirmed date from the reporting-date estimate;
lines 79-82 fill a missing recovered date from the estimate when
`_prognosis == "Recovered"`; lines 85-88 fill a missing deceased date from
the estimate when `_prognosis == "Died"`; lines 91-95 set
`date_new_hospitalized` to the (already filled) confirmed date when
`_hospitalized` lowercases to `"yes"`; line 98 maps the sex values through
`{"MALE": "male", "FEMALE": "female"}.get`; lines 101-106 drop the internal
columns, rewrite `province` from `city` for NCR rows and drop `city`. -/
def phPrepareCase (r : PhRawRow) : PhCaseRow :=
  let conf : Option String :=
    match r.date_new_confirmed with
    | some d => some d
    | none => r.date_estimate
  let recov : Option String :=
    if r.date_new_recovered == none && r.prognosis == some "Recovered" then
      r.date_estimate
    else r.date_new_recovered
  let dec : Option String :=
    if r.date_new_deceased == none && r.prognosis == some "Died" then
      r.date_estimate
    else r.date_new_deceased
  let hosp : Option String :=
    if r.hospitalized.map pyLower == some "yes" then conf else none
  let sex : Option String :=
    r.sex.bind fun s =>
      match s with
      | "MALE" => some "male"
      | "FEMALE" => some "female"
      | _ => none
  let province : Option String :=
    if r.region == some "NCR" then r.city.map (fun c => (c.drop 2).dropRight 3)
    else r.province
  { province := province, region := r.region,
    date_new_deceased := dec, date_new_confirmed := conf,
    date_new_recovered := recov, date_new_hospitalized := hosp,
    age := r.age, sex := sex }

/-! ### C3 and C4: derived-field estimation -/

/-- C3: a case record with an empty recovered date, a present estimate date
and prognosis `"Recovered"` gets `date_new_recovered` set to the estimate
date while `date_new_deceased` is left exactly as it was (in particular it
stays empty when it was empty); symmetrically, prognosis `"Died"` with an
empty deceased date fills only `date_new_deceased`, leaving
`date_new_recovered` as it was. -/
theorem ph_prognosis_fallback_fills_matching_date (r : PhRawRow) (d : String)
    (hest : r.date_estimate = some d) :
    (r.date_new_recovered = none → r.prognosis = some "Recovered" →
      (phPrepareCase r).date_new_recovered = some d ∧
        (phPrepareCase r).date_new_deceased = r.date_new_deceased) ∧
    (r.date_new_deceased = none → r.prognosis = some "Died" →
      (phPrepareCase r).date_new_deceased = some d ∧
        (phPrepareCase r).date_new_recovered = r.date_new_recovered) := by
  constructor
  · intro hrec hprog
    simp [phPrepareCase, hrec, hprog, hest]
  · intro hdec hprog
    simp [phPrepareCase, hdec, hprog, hest]

/-- Witness for C3 at a concrete record: prognosis `"Recovered"`, missing
recovered date, estimate `"2021-09-05"`. -/
theorem ph_prognosis_fallback_witness :
    (phPrepareCase
        { province := some "CEBU", region := some "Region VII", city := none,
          date_new_deceased := none, date_new_confirmed := some "2021-09-01",
          date_new_recovered := none, date_estimate := some "2021-09-05",
          hospitalized := some "No", prognosis := some "Recovered",
          age := some "30", sex := some "MALE" }).date_new_recovered = some "2021-09-05" ∧
    (phPrepareCase
        { province := some "CEBU", region := some "Region VII", city := none,
          date_new_deceased := none, date_new_confirmed := some "2021-09-01",
          date_new_recovered := none, date_estimate := some "2021-09-05",
          hospitalized := some "No", prognosis := some "Recovered",
          age := some "30", sex := some "MALE" }).date_new_deceased = none := by
  have h := ph_prognosis_fallback_fills_matching_date
    { province := some "CEBU", region := some "Region VII", city := none,
      date_new_deceased := none, date_new_confirmed := some "2021-09-01",
      date_new_recovered := none, date_estimate := some "2021-09-05",
      hospitalized := some "No", prognosis := some "Recovered",
      age := some "30", sex := some "MALE" } "2021-09-05" rfl
  exact ⟨(h.1 rfl rfl).1, (h.1 rfl rfl).2⟩

/-- C4: the estimation step never overwrites a directly reported date: a
confirmed, recovered or deceased date that is present before the step is
unchanged after it. (The Philippines source has no directly reported
hospitalized date: `date_new_hospitalized` is created by the step itself,
so there is no pre-existing value it could overwrite.) -/
theorem ph_estimation_preserves_reported_dates (r : PhRawRow) (v : String) :
    (r.date_new_confirmed = some v → (phPrepareCase r).date_new_confirmed = some v) ∧
    (r.date_new_recovered = some v → (phPrepareCase r).date_new_recovered = some v) ∧
    (r.date_new_deceased = some v → (phPrepareCase r).date_new_deceased = some v) := by
  refine ⟨fun h => ?_, fun h => ?_, fun h => ?_⟩ <;> simp [phPrepareCase, h]

/-- Witness for C4 at a concrete record whose three dates are all directly
reported: the step changes none of them. -/
theorem ph_estimation_preserves_reported_dates_witness :
    (phPrepareCase
        { province := some "CEBU", region := some "Region VII", city := none,
          date_new_deceased := some "2021-09-03", date_new_confirmed := some "2021-09-01",
          date_new_recovered := some "2021-09-02", date_estimate := some "2021-09-09",
          hospitalized := some "YES", prognosis := some "Died",
          age := some "30", sex := some "FEMALE" }).date_new_confirmed = some "2021-09-01" ∧
    (phPrepareCase
        { province := some "CEBU", region := some "Region VII", city := none,
          date_new_deceased := some "2021-09-03", date_new_confirmed := some "2021-09-01",
          date_new_recovered := some "2021-09-02", date_estimate := some "2021-09-09",
          hospitalized := some "YES", prognosis := some "Died",
          age := some "30", sex := some "FEMALE" }).date_new_recovered = some "2021-09-02" ∧
    (phPrepareCase
        { province := some "CEBU", region := some "Region VII", city := none,
          date_new_deceased := some "2021-09-03", date_new_confirmed := some "2021-09-01",
          date_new_recovered := some "2021-09-02", date_estimate := some "2021-09-09",
          hospitalized := some "YES", prognosis := some "Died",
          age := some "30", sex := some "FEMALE" }).date_new_deceased = some "2021-09-03" := by
  have h := ph_estimation_preserves_reported_dates
    { province := some "CEBU", region := some "Region VII", city := none,
      date_new_deceased := some "2021-09-03", date_new_confirmed := some "2021-09-01",
      date_new_recovered := some "2021-09-02", date_estimate := some "2021-09-09",
      hospitalized := some "YES", prognosis := some "Died",
      age := some "30", sex := some "FEMALE" } "2021-09-01"
  have h2 := ph_estimation_preserves_reported_dates
    { province := some "CEBU", region := some "Region VII", city := none,
      date_new_deceased := some "2021-09-03", date_new_confirmed := some "2021-09-01",
      date_new_recovered := some "2021-09-02", date_estimate := some "2021-09-09",
      hospitalized := some "YES", prognosis := some "Died",
      age := some "30", sex := some "FEMALE" } "2021-09-02"
  have h3 := ph_estimation_preserves_reported_dates
    { province := some "CEBU", region := some "Region VII", city := none,
      date_new_deceased := some "2021-09-03", date_new_confirmed := some "2021-09-01",
      date_new_recovered := some "2021-09-02", date_estimate := some "2021-09-09",
      hospitalized := some "YES", prognosis := some "Died",
      age := some "30", sex := some "FEMALE" } "2021-09-03"
  exact ⟨h.1 rfl, h2.2.1 rfl, h3.2.2 rfl⟩

/-! ## Philippines adapter: from the time-series table to the output table

`convert_cases_to_time_series` (lib/case_line, an external collaborator per
the spec) turns case records into one row per (province, region, date, age,
sex) with one count column per event type; everything after it
(ph_authority.py lines 111-149) is embedded below, starting from an
arbitrary time-series table. Per spec section 4.4 the converter buckets
null age/sex explicitly, so `age` and `sex` are plain strings here. -/

structure PhTSRow where
  province : Option String
  region : Option String
  date : String
  age : String
  sex : String
  new_confirmed : Option Nat
  new_deceased : Option Nat
  new_recovered : Option Nat
  new_hospitalized : Option Nat
deriving DecidableEq

/-- A time-series row after date normalization (ph_authority.py lines
112-114) and count defaulting (line 117, per spec section 4.5 the
`fillna(0)` asserts zero for the count columns of case-line-derived
series). -/
structure PhDataRow where
  province : Option String
  region : Option String
  date : String
  age : String
  sex : String
  new_confirmed : Nat
  new_deceased : Nat
  new_recovered : Nat
  new_hospitalized : Nat
deriving DecidableEq

/-- Modelled from the spec: `safe_datetime_parse` (lib/cast) followed by
`.date().isoformat()` is the repository's external date-parsing collaborator
(ph_authority.py lines 112-114). An ISO `YYYY-MM-DD` input parses to itself;
an input that fails parsing yields `none` and its row is dropped. -/
def safe_datetime_parse (s : String) : Option String :=
  if matchesISO s then some s else none

/-- ph_authority.py lines 112-117 for one row: parse the date (dropping the
row on failure) and default the missing counts to zero. -/
def phNormalizeRow (r : PhTSRow) : Option PhDataRow :=
  (safe_datetime_parse r.date).map fun d =>
    { province := r.province, region := r.region, date := d,
      age := r.age, sex := r.sex,
      new_confirmed := r.new_confirmed.getD 0,
      new_deceased := r.new_deceased.getD 0,
      new_recovered := r.new_recovered.getD 0,
      new_hospitalized := r.new_hospitalized.getD 0 }

def phData (ts : List PhTSRow) : List PhDataRow := ts.filterMap phNormalizeRow

/-- A row of the table `parse_dataframes` returns: the country aggregate and
the region/province rows concatenated (ph_authority.py line 149). Columns a
constituent table lacks are `none`, as pandas `concat` fills them with NaN. -/
structure PhOutRow where
  date : String
  age : String
  sex : String
  province : Option String
  region : Option String
  match_string : Option String
  subregion2_code : Option String
  locality_code : Option String
  country_code : Option String
  key : Option String
  new_confirmed : Nat
  new_deceased : Nat
  new_recovered : Nat
  new_hospitalized : Nat
deriving DecidableEq

/-- Group key of the country-level aggregation (ph_authority.py line 122). -/
structure PhCKey where
  date : String
  age : String
  sex : String
deriving DecidableEq

def phCMatch (k : PhCKey) (r : PhDataRow) : Bool :=
  r.date == k.date && r.age == k.age && r.sex == k.sex

/-- Sum of one count column over the rows of one (date, age, sex) group. -/
def phCSum (data : List PhDataRow) (k : PhCKey) (f : PhDataRow → Nat) : Nat :=
  ((data.filter (phCMatch k)).map f).sum

def phCKeys (data : List PhDataRow) : List PhCKey :=
  (data.map fun r => PhCKey.mk r.date r.age r.sex).dedup

/-- ph_authority.py lines 120-126: drop the location columns, group by
(date, age, sex), sum the counts and set `key = "PH"`. -/
def phCountryRows (data : List PhDataRow) : List PhOutRow :=
  (phCKeys data).map fun k =>
    { date := k.date, age := k.age, sex := k.sex,
      province := none, region := none, match_string := none,
      subregion2_code := none, locality_code := none, country_code := none,
      key := some "PH",
      new_confirmed := phCSum data k (fun r => r.new_confirmed),
      new_deceased := phCSum data k (fun r => r.new_deceased),
      new_recovered := phCSum data k (fun r => r.new_recovered),
      new_hospitalized := phCSum data k (fun r => r.new_hospitalized) }

/-- ph_authority.py lines 129, 134, 136, 140: the province-level copy of the
data renames `province` to `match_string`, flags itself with
`subregion2_code = ""` and carries `country_code = "PH"`; no `key` column is
assigned at this stage. -/
def phL3Row (r : PhDataRow) : PhOutRow :=
  { date := r.date, age := r.age, sex := r.sex,
    province := none, region := r.region, match_string := r.province,
    subregion2_code := some "", locality_code := none,
    country_code := some "PH", key := none,
    new_confirmed := r.new_confirmed, new_deceased := r.new_deceased,
    new_recovered := r.new_recovered, new_hospitalized := r.new_hospitalized }

/-- ph_authority.py lines 130-131, 135, 137, 140: the region-level copy
renames `region` to `match_string`, keeps the text after the last `": "`
(so `"Region IVA: CALABARZON"` becomes `"CALABARZON"`), flags itself with a
null `subregion2_code` and carries `country_code = "PH"`; no `key` column is
assigned at this stage. -/
def phL2Row (r : PhDataRow) : PhOutRow :=
  { date := r.date, age := r.age, sex := r.sex,
    province := r.province, region := none,
    match_string := r.region.map (pySplitLast ": "),
    subregion2_code := none, locality_code := none,
    country_code := some "PH", key := none,
    new_confirmed := r.new_confirmed, new_deceased := r.new_deceased,
    new_recovered := r.new_recovered, new_hospitalized := r.new_hospitalized }

/-- ph_authority.py line 139: `concat([l2, l3])` followed by
`.dropna(subset=["match_string"])`. -/
def phSubCountry (data : List PhDataRow) : List PhOutRow :=
  ((data.map phL2Row) ++ (data.map phL3Row)).filter fun r => r.match_string.isSome

/-- ph_authority.py lines 142-147, one pandas filter per line: keep only
rows whose `match_string` is present, non-empty and none of the documented
sentinel location names. -/
def phRemoveBogus (rows : List PhOutRow) : List PhOutRow :=
  ((((rows.filter fun r => r.match_string.isSome).filter
        fun r => r.match_string != some "").filter
      fun r => r.match_string != some "REPATRIATE").filter
    fun r => r.match_string != some "CITY OF ISABELA (NOT A PROVINCE)").filter
    fun r => r.match_string != some "COTABATO CITY (NOT A PROVINCE)"

/-- `PhilippinesDataSource.parse_dataframes` from the time-series table on
(ph_authority.py lines 111-149). -/
def ph_parse_dataframes (ts : List PhTSRow) : List PhOutRow :=
  phCountryRows (phData ts) ++ phRemoveBogus (phSubCountry (phData ts))

/-! ### C8: the record filter -/

/-- C8: a row survives the record-filter stage (ph_authority.py lines 139,
142-147) exactly when it was in the input and its `match_string` is
present, non-empty and not one of the three documented sentinel values; in
particular every sentinel-named row is removed and an otherwise-identical
row with a valid province or region name is kept. -/
theorem phRemoveBogus_mem_iff (rows : List PhOutRow) (r : PhOutRow) :
    r ∈ phRemoveBogus rows ↔
      r ∈ rows ∧ r.match_string ≠ none ∧ r.match_string ≠ some "" ∧
        r.match_string ≠ some "REPATRIATE" ∧
        r.match_string ≠ some "CITY OF ISABELA (NOT A PROVINCE)" ∧
        r.match_string ≠ some "COTABATO CITY (NOT A PROVINCE)" := by
  simp only [phRemoveBogus, List.mem_filter, Option.isSome_iff_exists, bne_iff_ne,
    ne_eq, Option.ne_none_iff_exists]
  constructor
  · rintro ⟨⟨⟨⟨⟨hmem, x, hx⟩, h1⟩, h2⟩, h3⟩, h4⟩
    exact ⟨hmem, ⟨x, hx.symm⟩, h1, h2, h3, h4⟩
  · rintro ⟨hmem, ⟨x, hx⟩, h1, h2, h3, h4⟩
    exact ⟨⟨⟨⟨⟨hmem, x, hx.symm⟩, h1⟩, h2⟩, h3⟩, h4⟩

/-! ## Philippines adapter: snapshot discovery

`PhilippinesDataSource.fetch` (ph_authority.py lines 29-50) probes
date-templated URLs in reverse chronological order. Dates are embedded as
day numbers; the network probe is a parameter. -/

/-- The observable part of the `requests.head` response the code inspects:
the HTTP status and the declared `Content-Length` header, absent headers
defaulting to `"0"` (ph_authority.py line 47). -/
structure ProbeResp where
  status : Nat
  contentLength : Option Nat
deriving DecidableEq

/-- ph_authority.py line 47: a snapshot exists when the status is 200 and
the declared content length is strictly positive. -/
def probeOk (p : ProbeResp) : Bool :=
  p.status == 200 && decide (0 < p.contentLength.getD 0)

/-- Modelled from the spec: `date_range` (lib/time) is not under `src/`;
section 4.1 gives the searched range as `[start, end)` with the end
exclusive (the caller passes today + 1 as `date_end`). -/
def date_range (s e : Nat) : List Nat := List.range' s (e - s)

/-- ph_authority.py line 44: iterate `reversed(list(date_range(...)))` and
stop at the first date whose probe succeeds. -/
def findSnapshotDate (probe : Nat → ProbeResp) (s e : Nat) : Option Nat :=
  ((date_range s e).reverse).find? fun d => probeOk (probe d)

/-- The error kind the spec assigns to an exhausted sweep. -/
inductive SnapshotError where
  | SnapshotNotFound
deriving DecidableEq

/-- `PhilippinesDataSource.fetch` (ph_authority.py lines 29-50) as it
returns to its caller: the body either returns the fetched snapshot's date
normally (line 50) or falls off the loop and returns Python's implicit
`None` — it contains no `raise`, so every outcome is a normal return
(`Except.ok`) and the error branch of the sum is never used. -/
def ph_fetch (probe : Nat → ProbeResp) (s e : Nat) :
    Except SnapshotError (Option Nat) :=
  Except.ok (findSnapshotDate probe s e)

lemma range'_reverse_succ (s n : Nat) :
    (List.range' s (n + 1)).reverse = (s + n) :: (List.range' s n).reverse := by
  have hconc : List.range' s (n + 1) = List.range' s n ++ [s + n] := by
    have := @List.range'_concat 1 s n
    simpa using this
  rw [hconc]
  simp

lemma findSnapshotDate_aux (probe : Nat → ProbeResp) (s : Nat) :
    ∀ n d, (((List.range' s n).reverse).find? (fun x => probeOk (probe x)) = some d ↔
      s ≤ d ∧ d < s + n ∧ probeOk (probe d) = true ∧
        ∀ x, d < x → x < s + n → probeOk (probe x) = false) := by
  intro n
  induction n with
  | zero =>
    intro d
    simp only [List.range', List.reverse_nil, List.find?_nil]
    constructor
    · intro h
      exact absurd h (by simp)
    · rintro ⟨h1, h2, _⟩
      omega
  | succ n ih =>
    intro d
    rw [range'_reverse_succ]
    rcases hp : probeOk (probe (s + n)) with _ | _
    · rw [List.find?_cons_of_neg _ (by simp [hp]), ih d]
      constructor
      · rintro ⟨h1, h2, h3, h4⟩
        refine ⟨h1, by omega, h3, fun x hx1 hx2 => ?_⟩
        rcases Nat.lt_or_ge x (s + n) with hlt | hge
        · exact h4 x hx1 hlt
        · have hx : x = s + n := by omega
          rw [hx]
          exact hp
      · rintro ⟨h1, h2, h3, h4⟩
        have hd : d ≠ s + n := by
          intro h
          rw [h, hp] at h3
          exact Bool.noConfusion h3
        exact ⟨h1, by omega, h3, fun x hx1 hx2 => h4 x hx1 (by omega)⟩
    · rw [List.find?_cons_of_pos _ (by simp [hp])]
      simp only [Option.some_inj]
      constructor
      · intro h
        rw [← h]
        exact ⟨by omega, by omega, hp, fun x hx1 hx2 => by omega⟩
      · rintro ⟨h1, h2, h3, h4⟩
        by_contra hne
        have hlt : d < s + n := by
          rcases Nat.lt_or_ge d (s + n) with h | h
          · exact h
          · exact absurd (by omega : d = s + n) (fun he => hne (by rw [he]))
        have hfalse := h4 (s + n) (by omega) (by omega)
        rw [hp] at hfalse
        exact Bool.noConfusion hfalse

/-! ### C5: the snapshot locator returns the most recent valid date -/

/-- C5: the snapshot sweep (ph_authority.py lines 40-50) returns date `d`
exactly when `d` lies in `[start, end)`, the existence probe at `d`
succeeds (HTTP 200 and positive declared content length), and the probe
fails at every later date of the range — i.e. the single most recent valid
date, found by descending search that stops at the first hit. -/
theorem findSnapshotDate_latest_hit (probe : Nat → ProbeResp) (s e d : Nat) :
    findSnapshotDate probe s e = some d ↔
      s ≤ d ∧ d < e ∧ probeOk (probe d) = true ∧
        ∀ x, d < x → x < e → probeOk (probe x) = false := by
  unfold findSnapshotDate date_range
  rcases le_or_lt s e with hse | hse
  · have : s + (e - s) = e := by omega
    rw [findSnapshotDate_aux probe s (e - s) d, this]
  · have : e - s = 0 := by omega
    rw [this]
    simp only [List.range', List.reverse_nil, List.find?_nil]
    constructor
    · intro h
      exact absurd h (by simp)
    · rintro ⟨h1, h2, _⟩
      omega

/-! ### C6: behaviour of an exhausted sweep -/

/-- A probe that always fails (404, no content length). -/
def phFailProbe : Nat → ProbeResp := fun _ => { status := 404, contentLength := none }

/-- Counterexample to C6 as stated: with no valid snapshot anywhere in the
range `[0, 3)`, `fetch` does not signal `SnapshotNotFound` — it falls off
the loop and returns Python's implicit `None` (a normal return, not an
error). -/
theorem ph_fetch_not_error_cex :
    ph_fetch phFailProbe 0 3 = Except.ok none ∧
      ph_fetch phFailProbe 0 3 ≠ Except.error SnapshotError.SnapshotNotFound := by
  constructor
  · rfl
  · intro h
    exact Except.noConfusion h

/-- C6 as amended: when the existence probe fails for every date of
`[start, end)`, `fetch` returns no result (`Except.ok none`, Python's
implicit `None`) rather than signalling a `SnapshotNotFound` error; the
failure surfaces to the caller only through the missing return value. -/
theorem ph_fetch_exhausted_returns_none (probe : Nat → ProbeResp) (s e : Nat)
    (h : ∀ d, s ≤ d → d < e → probeOk (probe d) = false) :
    ph_fetch probe s e = Except.ok none := by
  unfold ph_fetch findSnapshotDate date_range
  congr 1
  rw [List.find?_eq_none]
  intro d hd
  rw [List.mem_reverse, List.mem_range'_1] at hd
  simp [h d hd.1 (by omega)]

/-- Witness for C6's amended theorem at the concrete always-failing probe
over `[0, 3)`. -/
theorem ph_fetch_exhausted_witness :
    ph_fetch phFailProbe 0 3 = Except.ok none :=
  ph_fetch_exhausted_returns_none phFailProbe 0 3 (fun _ _ _ => rfl)

/-! ## Brazil vaccination adapter: `_process_partition`

br_authority.py lines 94-120, starting from the table
`convert_cases_to_time_series` returns (one row per (subregion1_code,
subregion2_code, date, age, sex) with one count column per event type; per
spec section 4.4 null age/sex are explicit buckets, so `age` and `sex` are
plain strings). Counts stay `Option`-valued — there is no `fillna` before
aggregation in this adapter; pandas `sum()` skips missing values, embedded
as `getD 0` inside the group sums. -/

structure BrTSRow where
  date : String
  subregion1_code : Option String
  subregion2_code : Option String
  age : String
  sex : String
  new_vaccine_doses_administered : Option Nat
  new_persons_vaccinated : Option Nat
  new_persons_fully_vaccinated : Option Nat
deriving DecidableEq

/-- Modelled from the spec: `datetime_isoformat(x, "%Y-%m-%d")` (lib/time)
is the external date-parsing collaborator used at br_authority.py line 96:
a well-formed `YYYY-MM-DD` string parses to itself, anything else yields
`None`. -/
def datetime_isoformat (s : String) : Option String :=
  if matchesISO s then some s else none

/-- br_authority.py lines 95-99 for one row: keep the first ten chars of the
date, parse it, and drop the row when parsing fails (`dropna`). -/
def brConvertDate (r : BrTSRow) : Option BrTSRow :=
  (datetime_isoformat (r.date.take 10)).map fun d => { r with date := d }

/-- The time-series table after date conversion and the malformed-date
`dropna` (br_authority.py lines 95-99). -/
def brConvData (raw : List BrTSRow) : List BrTSRow := raw.filterMap brConvertDate

/-- br_authority.py lines 100-101: the date must be at or after the epoch
`"2020-01-01"` and strictly before today + 1 (`date_today(offset=1)`,
passed in here as `today1`); pandas compares the ISO strings
lexicographically. -/
def brDateOk (today1 : String) (d : String) : Bool :=
  pyStrLe "2020-01-01" d && pyStrLt d today1

/-- The table the aggregation stage of `_process_partition` actually
receives: date-converted and date-filtered (br_authority.py lines 95-101
run before the aggregations of lines 104-120). -/
def brAggInput (today1 : String) (raw : List BrTSRow) : List BrTSRow :=
  (brConvData raw).filter fun r => brDateOk today1 r.date

def cntDoses (r : BrTSRow) : Nat := r.new_vaccine_doses_administered.getD 0

def cntPersons (r : BrTSRow) : Nat := r.new_persons_vaccinated.getD 0

def cntFully (r : BrTSRow) : Nat := r.new_persons_fully_vaccinated.getD 0

/-- A row of the table `_process_partition` returns (br_authority.py line
120): country, state and municipality rows concatenated. Columns a
constituent table lacks are `none`. -/
structure BrOutRow where
  date : String
  subregion1_code : Option String
  subregion2_code : Option String
  age : String
  sex : String
  key : Option String
  new_vaccine_doses_administered : Option Nat
  new_persons_vaccinated : Option Nat
  new_persons_fully_vaccinated : Option Nat
deriving DecidableEq

/-- Group key of the country-level aggregation (date, age, sex). -/
structure BrCKey where
  date : String
  age : String
  sex : String
deriving DecidableEq

/-- Group key of the state-level aggregation (date, subregion1_code, age,
sex); pandas `groupby` drops rows whose `subregion1_code` is null, so the
key's code is a plain string. -/
structure BrSKey where
  date : String
  subregion1_code : String
  age : String
  sex : String
deriving DecidableEq

def brCMatch (k : BrCKey) (r : BrTSRow) : Bool :=
  r.date == k.date && r.age == k.age && r.sex == k.sex

def brSMatch (k : BrSKey) (r : BrTSRow) : Bool :=
  r.date == k.date && r.subregion1_code == some k.subregion1_code &&
    r.age == k.age && r.sex == k.sex

/-- Sum of one count column over the rows of one (date, age, sex) group. -/
def brCSum (l : List BrTSRow) (k : BrCKey) (f : BrTSRow → Nat) : Nat :=
  ((l.filter (brCMatch k)).map f).sum

/-- Sum of one count column over the rows of one (date, subregion1_code,
age, sex) group. -/
def brSSum (l : List BrTSRow) (k : BrSKey) (f : BrTSRow → Nat) : Nat :=
  ((l.filter (brSMatch k)).map f).sum

def brCKeys (data : List BrTSRow) : List BrCKey :=
  (data.map fun r => BrCKey.mk r.date r.age r.sex).dedup

/-- Modelled from the spec: `aggregate_admin_level(data, ["date", "age",
"sex"], "country")` (lib/utils) is not under `src/`; section 4.5 describes
the country level as the sum of all finer-level rows grouped by (date, age,
sex), the location code columns dropped. -/
def aggregate_admin_level (data : List BrTSRow) : List BrOutRow :=
  (brCKeys data).map fun k =>
    { date := k.date, subregion1_code := none, subregion2_code := none,
      age := k.age, sex := k.sex, key := none,
      new_vaccine_doses_administered := some (brCSum data k cntDoses),
      new_persons_vaccinated := some (brCSum data k cntPersons),
      new_persons_fully_vaccinated := some (brCSum data k cntFully) }

/-- br_authority.py lines 104-105: the country aggregate with
`key = "BR"`. -/
def brCountry (data : List BrTSRow) : List BrOutRow :=
  (aggregate_admin_level data).map fun r => { r with key := some "BR" }

def brStateKey (r : BrTSRow) : Option BrSKey :=
  r.subregion1_code.map fun s1 => { date := r.date, subregion1_code := s1, age := r.age, sex := r.sex }

def brStateKeys (data : List BrTSRow) : List BrSKey :=
  (data.filterMap brStateKey).dedup

/-- br_authority.py lines 108-114: drop `subregion2_code`, group by (date,
subregion1_code, age, sex), sum the counts, and set
`key = "BR_" + subregion1_code`. -/
def brState (data : List BrTSRow) : List BrOutRow :=
  (brStateKeys data).map fun k =>
    { date := k.date, subregion1_code := some k.subregion1_code,
      subregion2_code := none, age := k.age, sex := k.sex,
      key := some ("BR_" ++ k.subregion1_code),
      new_vaccine_doses_administered := some (brSSum data k cntDoses),
      new_persons_vaccinated := some (brSSum data k cntPersons),
      new_persons_fully_vaccinated := some (brSSum data k cntFully) }

/-- br_authority.py line 117: the municipality level keeps only rows whose
`subregion2_code` is present and non-empty. -/
def brSr2Usable (r : BrTSRow) : Bool :=
  r.subregion2_code != none && r.subregion2_code != some ""

/-- br_authority.py line 118: `key = "BR_" + subregion1_code + "_" +
subregion2_code`; pandas string concatenation with a null operand yields
null, so the key is missing when `subregion1_code` is. -/
def brSubRow (r : BrTSRow) : BrOutRow :=
  { date := r.date, subregion1_code := r.subregion1_code,
    subregion2_code := r.subregion2_code, age := r.age, sex := r.sex,
    key :=
      match r.subregion1_code, r.subregion2_code with
      | some s1, some s2 => some ("BR_" ++ s1 ++ "_" ++ s2)
      | _, _ => none,
    new_vaccine_doses_administered := r.new_vaccine_doses_administered,
    new_persons_vaccinated := r.new_persons_vaccinated,
    new_persons_fully_vaccinated := r.new_persons_fully_vaccinated }

/-- br_authority.py lines 117-118: the municipality-level rows. -/
def brSub (data : List BrTSRow) : List BrOutRow :=
  (data.filter brSr2Usable).map brSubRow

/-- `_process_partition` (br_authority.py lines 94-120) from the
time-series table on: normalize and bound the dates, then stack the
country, state and municipality aggregates. -/
def br_process_partition (today1 : String) (raw : List BrTSRow) : List BrOutRow :=
  brCountry (brAggInput today1 raw) ++ brState (brAggInput today1 raw) ++
    brSub (brAggInput today1 raw)

/-- Match of an output row against a state-level group key. -/
def brOutSMatch (k : BrSKey) (r : BrOutRow) : Bool :=
  r.date == k.date && r.subregion1_code == some k.subregion1_code &&
    r.age == k.age && r.sex == k.sex

/-- Sum of one count column over the output rows matching a state-level
group key. -/
def brOutSum (rows : List BrOutRow) (k : BrSKey) (g : BrOutRow → Nat) : Nat :=
  ((rows.filter (brOutSMatch k)).map g).sum

def outCntDoses (r : BrOutRow) : Nat := r.new_vaccine_doses_administered.getD 0

def outCntPersons (r : BrOutRow) : Nat := r.new_persons_vaccinated.getD 0

def outCntFully (r : BrOutRow) : Nat := r.new_persons_fully_vaccinated.getD 0

/-- Splitting a filtered sum along a second predicate. -/
lemma sum_map_filter_partition {α : Type} (l : List α) (m q : α → Bool) (f : α → Nat) :
    ((l.filter m).map f).sum
      = (((l.filter q).filter m).map f).sum
        + (((l.filter fun a => !q a).filter m).map f).sum := by
  induction l with
  | nil => simp
  | cons a t ih =>
    cases hq : q a <;> cases hm : m a <;>
      simp [List.filter_cons, hq, hm, ih] <;> omega

lemma brOutSMatch_subRow (k : BrSKey) (r : BrTSRow) :
    brOutSMatch k (brSubRow r) = brSMatch k r := rfl

/-- The municipality-level part of a state group's sum, pushed back to the
underlying time-series rows. -/
lemma brOutSum_brSub (data : List BrTSRow) (k : BrSKey) (f : BrTSRow → Nat)
    (g : BrOutRow → Nat) (hfg : ∀ r, g (brSubRow r) = f r) :
    brOutSum (brSub data) k g = (((data.filter brSr2Usable).filter (brSMatch k)).map f).sum := by
  unfold brOutSum brSub
  rw [List.filter_map, List.map_map]
  have h1 : (brOutSMatch k ∘ brSubRow) = brSMatch k := funext fun r => rfl
  have h2 : (g ∘ brSubRow) = f := funext hfg
  rw [h1, h2]

/-! ### C1: state-level sums versus municipality-level sums -/

lemma brSSum_split (data : List BrTSRow) (k : BrSKey) (f : BrTSRow → Nat)
    (g : BrOutRow → Nat) (hfg : ∀ r, g (brSubRow r) = f r) :
    brSSum data k f
      = brOutSum (brSub data) k g
        + brSSum (data.filter fun r => !brSr2Usable r) k f := by
  rw [brOutSum_brSub data k f g hfg]
  unfold brSSum
  exact sum_map_filter_partition data (brSMatch k) brSr2Usable f

/-- C1 as amended: for each event count column, the state-level aggregated
count of a (date, subregion1_code, age, sex) group equals the sum over the
municipality-level output rows of that group plus the contribution of the
rows excluded from the municipality level for lacking a usable
`subregion2_code`; the originally claimed equality therefore holds exactly
when those excluded contributions are zero, while excluded rows do still
contribute to the state-level sum. -/
theorem brStateSum_eq_subSum_add_missingSum (data : List BrTSRow) (k : BrSKey) :
    brSSum data k cntDoses
        = brOutSum (brSub data) k outCntDoses
          + brSSum (data.filter fun r => !brSr2Usable r) k cntDoses ∧
    brSSum data k cntPersons
        = brOutSum (brSub data) k outCntPersons
          + brSSum (data.filter fun r => !brSr2Usable r) k cntPersons ∧
    brSSum data k cntFully
        = brOutSum (brSub data) k outCntFully
          + brSSum (data.filter fun r => !brSr2Usable r) k cntFully :=
  ⟨brSSum_split data k cntDoses outCntDoses fun _ => rfl,
    brSSum_split data k cntPersons outCntPersons fun _ => rfl,
    brSSum_split data k cntFully outCntFully fun _ => rfl⟩

/-- Counterexample to C1 as stated: one time-series row for state `"SP"`
with a missing `subregion2_code` and one administered dose. The state-level
group sum is 1, but the row is excluded from the municipality level, whose
output rows for the same (date, subregion1_code, age, sex) tuple sum to 0:
the claimed equality fails. -/
theorem brSubSum_ne_stateSum_cex :
    brOutSum
        (brSub [{ date := "2021-01-05", subregion1_code := some "SP",
                  subregion2_code := none, age := "30", sex := "male",
                  new_vaccine_doses_administered := some 1,
                  new_persons_vaccinated := some 1,
                  new_persons_fully_vaccinated := none }])
        { date := "2021-01-05", subregion1_code := "SP", age := "30", sex := "male" }
        outCntDoses
      ≠ brSSum
          [{ date := "2021-01-05", subregion1_code := some "SP",
             subregion2_code := none, age := "30", sex := "male",
             new_vaccine_doses_administered := some 1,
             new_persons_vaccinated := some 1,
             new_persons_fully_vaccinated := none }]
          { date := "2021-01-05", subregion1_code := "SP", age := "30", sex := "male" }
          cntDoses := by
  decide

/-! ### C9: where the record filter runs relative to aggregation -/

/-- A pre-filter by `p` does not change a filtered-by-`m` sum when every
`m`-matching element passes `p`. -/
lemma sum_map_filter_congr {α : Type} (l : List α) (m p : α → Bool) (f : α → Nat)
    (h : ∀ a, m a = true → p a = true) :
    (((l.filter p).filter m).map f).sum = ((l.filter m).map f).sum := by
  induction l with
  | nil => simp
  | cons a t ih =>
    simp only [List.filter_filter] at ih
    cases hm : m a
    · cases hp : p a <;> simp [List.filter_cons, List.filter_filter, hm, hp, ih]
    · have hp := h a hm
      simp [List.filter_cons, List.filter_filter, hm, hp, ih]

/-- A pre-filter by `p` empties a filtered-by-`m` sum when every
`m`-matching element fails `p`. -/
lemma sum_map_filter_zero {α : Type} (l : List α) (m p : α → Bool) (f : α → Nat)
    (h : ∀ a, m a = true → p a = false) :
    (((l.filter p).filter m).map f).sum = 0 := by
  induction l with
  | nil => simp
  | cons a t ih =>
    simp only [List.filter_filter] at ih
    cases hm : m a
    · cases hp : p a <;> simp [List.filter_cons, List.filter_filter, hm, hp, ih]
    · have hp := h a hm
      simp [List.filter_cons, List.filter_filter, hm, hp, ih]

lemma brSMatch_date {k : BrSKey} {r : BrTSRow} (h : brSMatch k r = true) :
    r.date = k.date := by
  unfold brSMatch at h
  simp only [Bool.and_eq_true, beq_iff_eq] at h
  exact h.1.1.1

lemma brSSum_date_filter (today1 : String) (l : List BrTSRow) (k : BrSKey)
    (f : BrTSRow → Nat) :
    brSSum (l.filter fun r => brDateOk today1 r.date) k f
      = if brDateOk today1 k.date then brSSum l k f else 0 := by
  rcases hd : brDateOk today1 k.date with _ | _
  · unfold brSSum
    rw [sum_map_filter_zero l (brSMatch k) (fun r => brDateOk today1 r.date) f
      (fun a ha => by show brDateOk today1 a.date = false; rw [brSMatch_date ha]; exact hd)]
    simp [hd]
  · unfold brSSum
    rw [sum_map_filter_congr l (brSMatch k) (fun r => brDateOk today1 r.date) f
      (fun a ha => by show brDateOk today1 a.date = true; rw [brSMatch_date ha]; exact hd)]
    simp [hd]

/-- C9 as amended: the malformed-date and date-bound removals run before
aggregation, not after it — but because the date is a group key at every
aggregation level this is observationally equivalent to filtering the
aggregated rows by their date afterwards: a state group's sum over the
filtered input equals its sum over the full converted data when the group's
date is in range, and the group disappears otherwise. The
sentinel-location removal, by contrast, does run after aggregation: the
Philippines country-level group sums are taken over all rows, those with a
sentinel province (for example `"REPATRIATE"`) contributing like any
other. -/
theorem date_filter_commutes_with_aggregation :
    (∀ today1 raw (k : BrSKey) (f : BrTSRow → Nat),
        brSSum (brAggInput today1 raw) k f
          = if brDateOk today1 k.date then brSSum (brConvData raw) k f else 0) ∧
    (∀ data (k : PhCKey) (f : PhDataRow → Nat),
        phCSum data k f
          = phCSum (data.filter fun r => !(r.province == some "REPATRIATE")) k f
            + phCSum (data.filter fun r => r.province == some "REPATRIATE") k f) := by
  constructor
  · intro today1 raw k f
    exact brSSum_date_filter today1 (brConvData raw) k f
  · intro data k f
    unfold phCSum
    rw [Nat.add_comm]
    exact sum_map_filter_partition data (phCMatch k)
      (fun r => r.province == some "REPATRIATE") f

/-- Counterexample to C9 as stated: a time-series row dated
`"2019-06-01T00:00:00"` survives date conversion but is removed by the
date-bound filter before any aggregation runs, so the aggregation stage of
`_process_partition` does not observe the full converted data. -/
theorem br_filter_before_aggregation_cex :
    brAggInput "2030-01-01"
        [{ date := "2019-06-01T00:00:00", subregion1_code := some "SP",
           subregion2_code := some "355030", age := "30", sex := "male",
           new_vaccine_doses_administered := some 1,
           new_persons_vaccinated := some 1,
           new_persons_fully_vaccinated := none }]
      ≠ brConvData
          [{ date := "2019-06-01T00:00:00", subregion1_code := some "SP",
             subregion2_code := some "355030", age := "30", sex := "male",
             new_vaccine_doses_administered := some 1,
             new_persons_vaccinated := some 1,
             new_persons_fully_vaccinated := none }] := by
  decide

/-! ## Shape of the output rows (helpers for the key and date invariants) -/

lemma datetime_isoformat_eq_some {s d : String} (h : datetime_isoformat s = some d) :
    d = s ∧ matchesISO s = true := by
  unfold datetime_isoformat at h
  by_cases hc : matchesISO s = true
  · rw [if_pos hc] at h
    exact ⟨(Option.some_inj.mp h).symm, hc⟩
  · rw [if_neg hc] at h
    exact absurd h (by simp)

lemma mem_brConvData_iso {raw : List BrTSRow} {r : BrTSRow}
    (h : r ∈ brConvData raw) : matchesISO r.date = true := by
  unfold brConvData at h
  rw [List.mem_filterMap] at h
  obtain ⟨r0, _, hr⟩ := h
  unfold brConvertDate at hr
  cases hdi : datetime_isoformat (r0.date.take 10) with
  | none =>
    rw [hdi] at hr
    exact absurd hr (by simp)
  | some d =>
    rw [hdi] at hr
    rw [Option.map_some', Option.some_inj] at hr
    obtain ⟨hd1, hd2⟩ := datetime_isoformat_eq_some hdi
    have hdate : r.date = d := by rw [← hr]
    rw [hdate, hd1]
    exact hd2

lemma mem_brAggInput {today1 : String} {raw : List BrTSRow} {r : BrTSRow}
    (h : r ∈ brAggInput today1 raw) :
    matchesISO r.date = true ∧ brDateOk today1 r.date = true := by
  unfold brAggInput at h
  rw [List.mem_filter] at h
  exact ⟨mem_brConvData_iso h.1, h.2⟩

lemma brCountry_shape {data : List BrTSRow} {r : BrOutRow} (h : r ∈ brCountry data) :
    r.key = some "BR" ∧ r.subregion1_code = none ∧ r.subregion2_code = none ∧
      ∃ r0 ∈ data, r.date = r0.date := by
  unfold brCountry aggregate_admin_level at h
  rw [List.map_map, List.mem_map] at h
  obtain ⟨k, hk, hr⟩ := h
  subst hr
  refine ⟨rfl, rfl, rfl, ?_⟩
  unfold brCKeys at hk
  rw [List.mem_dedup, List.mem_map] at hk
  obtain ⟨r0, h0, he⟩ := hk
  refine ⟨r0, h0, ?_⟩
  rw [← he]
  rfl

lemma brState_shape {data : List BrTSRow} {r : BrOutRow} (h : r ∈ brState data) :
    (∃ s1, r.subregion1_code = some s1 ∧ r.key = some ("BR_" ++ s1)) ∧
      r.subregion2_code = none ∧ ∃ r0 ∈ data, r.date = r0.date := by
  unfold brState at h
  rw [List.mem_map] at h
  obtain ⟨k, hk, hr⟩ := h
  subst hr
  refine ⟨⟨k.subregion1_code, rfl, rfl⟩, rfl, ?_⟩
  unfold brStateKeys at hk
  rw [List.mem_dedup, List.mem_filterMap] at hk
  obtain ⟨r0, h0, hkey⟩ := hk
  unfold brStateKey at hkey
  cases hsr : r0.subregion1_code with
  | none =>
    rw [hsr] at hkey
    exact absurd hkey (by simp)
  | some s1 =>
    rw [hsr] at hkey
    rw [Option.map_some', Option.some_inj] at hkey
    refine ⟨r0, h0, ?_⟩
    rw [← hkey]

lemma brSub_shape {data : List BrTSRow} {r : BrOutRow} (h : r ∈ brSub data) :
    ∃ r0, r0 ∈ data ∧ brSr2Usable r0 = true ∧ r = brSubRow r0 := by
  unfold brSub at h
  rw [List.mem_map] at h
  obtain ⟨r0, h0, hr⟩ := h
  rw [List.mem_filter] at h0
  exact ⟨r0, h0.1, h0.2, hr.symm⟩

lemma safe_datetime_parse_eq_some {s d : String} (h : safe_datetime_parse s = some d) :
    d = s ∧ matchesISO s = true := by
  unfold safe_datetime_parse at h
  by_cases hc : matchesISO s = true
  · rw [if_pos hc] at h
    exact ⟨(Option.some_inj.mp h).symm, hc⟩
  · rw [if_neg hc] at h
    exact absurd h (by simp)

lemma mem_phData_iso {ts : List PhTSRow} {r : PhDataRow}
    (h : r ∈ phData ts) : matchesISO r.date = true := by
  unfold phData at h
  rw [List.mem_filterMap] at h
  obtain ⟨r0, _, hr⟩ := h
  unfold phNormalizeRow at hr
  cases hdi : safe_datetime_parse r0.date with
  | none =>
    rw [hdi] at hr
    exact absurd hr (by simp)
  | some d =>
    rw [hdi] at hr
    rw [Option.map_some', Option.some_inj] at hr
    obtain ⟨hd1, hd2⟩ := safe_datetime_parse_eq_some hdi
    have hdate : r.date = d := by rw [← hr]
    rw [hdate, hd1]
    exact hd2

lemma phCountryRows_shape {data : List PhDataRow} {r : PhOutRow}
    (h : r ∈ phCountryRows data) :
    r.key = some "PH" ∧ r.match_string = none ∧ ∃ r0 ∈ data, r.date = r0.date := by
  unfold phCountryRows at h
  rw [List.mem_map] at h
  obtain ⟨k, hk, hr⟩ := h
  subst hr
  refine ⟨rfl, rfl, ?_⟩
  unfold phCKeys at hk
  rw [List.mem_dedup, List.mem_map] at hk
  obtain ⟨r0, h0, he⟩ := hk
  refine ⟨r0, h0, ?_⟩
  rw [← he]

lemma phSubCountry_shape {data : List PhDataRow} {r : PhOutRow}
    (h : r ∈ phSubCountry data) :
    r.key = none ∧ ∃ r0 ∈ data, r.date = r0.date := by
  unfold phSubCountry at h
  rw [List.mem_filter] at h
  rcases List.mem_append.mp h.1 with h2 | h3
  · rw [List.mem_map] at h2
    obtain ⟨r0, h0, hr⟩ := h2
    subst hr
    exact ⟨rfl, r0, h0, rfl⟩
  · rw [List.mem_map] at h3
    obtain ⟨r0, h0, hr⟩ := h3
    subst hr
    exact ⟨rfl, r0, h0, rfl⟩

lemma phRemoveBogus_subset {rows : List PhOutRow} {r : PhOutRow}
    (h : r ∈ phRemoveBogus rows) : r ∈ rows := by
  unfold phRemoveBogus at h
  simp only [List.mem_filter] at h
  exact h.1.1.1.1.1

lemma phRemoveBogus_ms_ne_none {rows : List PhOutRow} {r : PhOutRow}
    (h : r ∈ phRemoveBogus rows) : r.match_string ≠ none := by
  unfold phRemoveBogus at h
  simp only [List.mem_filter] at h
  have hs := h.1.1.1.1.2
  rw [Option.isSome_iff_ne_none] at hs
  exact hs

/-! ### C2: key consistency of the output rows -/

/-- Key consistency for one Brazil output row: any key carried is non-empty,
and the key follows the row's code components — `"BR"` at country level,
`"BR_" + subregion1_code` at state level, `"BR_" + subregion1_code + "_" +
subregion2_code` at municipality level, and missing when a municipality row
lacks its `subregion1_code` (pandas null propagation at br_authority.py
line 118). -/
def brKeyConsistent (r : BrOutRow) : Prop :=
  (∀ s, r.key = some s → 0 < s.length) ∧
  (r.subregion1_code = none → r.subregion2_code = none → r.key = some "BR") ∧
  (∀ s1, r.subregion1_code = some s1 → r.subregion2_code = none →
    r.key = some ("BR_" ++ s1)) ∧
  (∀ s1 s2, r.subregion1_code = some s1 → r.subregion2_code = some s2 →
    r.key = some ("BR_" ++ s1 ++ "_" ++ s2)) ∧
  (r.subregion1_code = none → ∀ s2, r.subregion2_code = some s2 → r.key = none)

/-- C2 as amended: in the Brazil vaccination output every row's key is
consistent with its code components and never the empty string, but a
municipality row whose `subregion1_code` is missing carries a missing key;
in the Philippines output only the country-level rows (those with no
`match_string`) carry the key `"PH"` — sub-country rows carry no key at
all, their keys being left to the downstream location-matching
collaborator. -/
theorem output_key_consistency_amended :
    (∀ today1 raw (r : BrOutRow), r ∈ br_process_partition today1 raw →
        brKeyConsistent r) ∧
    (∀ ts (r : PhOutRow), r ∈ ph_parse_dataframes ts →
        (r.match_string = none → r.key = some "PH") ∧
        (r.match_string ≠ none → r.key = none)) := by
  constructor
  · intro today1 raw r h
    unfold br_process_partition at h
    rcases List.mem_append.mp h with h12 | hsub
    rcases List.mem_append.mp h12 with hc | hs
    · obtain ⟨hkey, h1, h2, _⟩ := brCountry_shape hc
      refine ⟨?_, fun _ _ => hkey, ?_, ?_, ?_⟩
      · intro s hs
        rw [hkey, Option.some_inj] at hs
        rw [← hs]
        decide
      · intro s1 hs1 _
        rw [h1] at hs1
        exact absurd hs1 (by simp)
      · intro s1 s2 hs1 _
        rw [h1] at hs1
        exact absurd hs1 (by simp)
      · intro _ s2 hs2
        rw [h2] at hs2
        exact absurd hs2 (by simp)
    · obtain ⟨⟨s1, hsr1, hkey⟩, hsr2, _⟩ := brState_shape hs
      refine ⟨?_, ?_, ?_, ?_, ?_⟩
      · intro s hss
        rw [hkey, Option.some_inj] at hss
        rw [← hss, String.length_append]
        have h3 : ("BR_" : String).length = 3 := rfl
        omega
      · intro hn _
        rw [hsr1] at hn
        exact absurd hn (by simp)
      · intro t1 ht1 _
        rw [hsr1, Option.some_inj] at ht1
        rw [← ht1]
        exact hkey
      · intro t1 t2 _ ht2
        rw [hsr2] at ht2
        exact absurd ht2 (by simp)
      · intro hn
        rw [hsr1] at hn
        exact absurd hn (by simp)
    · obtain ⟨r0, _, husable, hr⟩ := brSub_shape hsub
      unfold brSr2Usable at husable
      rw [Bool.and_eq_true, bne_iff_ne, bne_iff_ne] at husable
      obtain ⟨s2, hs2⟩ := Option.ne_none_iff_exists.mp husable.1
      subst hr
      cases hsr1 : r0.subregion1_code with
      | none =>
        refine ⟨?_, ?_, ?_, ?_, ?_⟩
        · intro s hss
          rw [show (brSubRow r0).key = none by
                unfold brSubRow; rw [hsr1, ← hs2]] at hss
          exact absurd hss (by simp)
        · intro _ hn2
          rw [show (brSubRow r0).subregion2_code = r0.subregion2_code from rfl,
            ← hs2] at hn2
          exact absurd hn2 (by simp)
        · intro t1 ht1 _
          rw [show (brSubRow r0).subregion1_code = r0.subregion1_code from rfl,
            hsr1] at ht1
          exact absurd ht1 (by simp)
        · intro t1 t2 ht1 _
          rw [show (brSubRow r0).subregion1_code = r0.subregion1_code from rfl,
            hsr1] at ht1
          exact absurd ht1 (by simp)
        · intro _ t2 _
          unfold brSubRow
          rw [hsr1, ← hs2]
      | some s1 =>
        have hkey : (brSubRow r0).key = some ("BR_" ++ s1 ++ "_" ++ s2) := by
          unfold brSubRow
          rw [hsr1, ← hs2]
        refine ⟨?_, ?_, ?_, ?_, ?_⟩
        · intro s hss
          rw [hkey, Option.some_inj] at hss
          rw [← hss, String.length_append, String.length_append,
            String.length_append]
          have h3 : ("BR_" : String).length = 3 := rfl
          omega
        · intro hn _
          rw [show (brSubRow r0).subregion1_code = r0.subregion1_code from rfl,
            hsr1] at hn
          exact absurd hn (by simp)
        · intro t1 _ hn2
          rw [show (brSubRow r0).subregion2_code = r0.subregion2_code from rfl,
            ← hs2] at hn2
          exact absurd hn2 (by simp)
        · intro t1 t2 ht1 ht2
          rw [show (brSubRow r0).subregion1_code = r0.subregion1_code from rfl,
            hsr1, Option.some_inj] at ht1
          rw [show (brSubRow r0).subregion2_code = r0.subregion2_code from rfl,
            ← hs2, Option.some_inj] at ht2
          rw [← ht1, ← ht2]
          exact hkey
        · intro hn
          rw [show (brSubRow r0).subregion1_code = r0.subregion1_code from rfl,
            hsr1] at hn
          exact absurd hn (by simp)
  · intro ts r h
    unfold ph_parse_dataframes at h
    rcases List.mem_append.mp h with hc | hb
    · obtain ⟨hkey, hms, _⟩ := phCountryRows_shape hc
      exact ⟨fun _ => hkey, fun hne => absurd hms hne⟩
    · have hms := phRemoveBogus_ms_ne_none hb
      have hmem := phRemoveBogus_subset hb
      obtain ⟨hkey, _⟩ := phSubCountry_shape hmem
      exact ⟨fun hn => absurd hn hms, fun _ => hkey⟩

/-- Counterexample to C2 as stated: the Philippines output contains a
region-level row (here for `"Region VII"`) whose `key` field is missing
entirely — sub-country rows of this adapter leave `key` unassigned for the
downstream location matcher, so not every output row carries a non-empty
key. -/
theorem ph_subcountry_row_has_no_key_cex :
    ({ date := "2021-09-01", age := "30", sex := "male", province := some "Cebu",
       region := none, match_string := some "Region VII",
       subregion2_code := none, locality_code := none,
       country_code := some "PH", key := none, new_confirmed := 1,
       new_deceased := 0, new_recovered := 0, new_hospitalized := 0 } : PhOutRow)
        ∈ ph_parse_dataframes
          [{ province := some "Cebu", region := some "Region VII",
             date := "2021-09-01", age := "30", sex := "male",
             new_confirmed := some 1, new_deceased := none,
             new_recovered := none, new_hospitalized := none }] ∧
      ({ date := "2021-09-01", age := "30", sex := "male", province := some "Cebu",
         region := none, match_string := some "Region VII",
         subregion2_code := none, locality_code := none,
         country_code := some "PH", key := none, new_confirmed := 1,
         new_deceased := 0, new_recovered := 0,
         new_hospitalized := 0 } : PhOutRow).key = none := by
  constructor
  · decide
  · rfl

/-! ### C7: dates of the output rows -/

/-- C7 as amended: every row of the Brazil vaccination output has an ISO
`YYYY-MM-DD` date lying in `[2020-01-01, today + 1)` — malformed and
out-of-range dates never appear; every row of the Philippines output has an
ISO `YYYY-MM-DD` date (rows whose date failed parsing are dropped), but no
epoch or today-plus-one bound is enforced in that adapter. -/
theorem output_dates_iso_and_bounded_amended :
    (∀ today1 raw (r : BrOutRow), r ∈ br_process_partition today1 raw →
        matchesISO r.date = true ∧ pyStrLe "2020-01-01" r.date = true ∧
          pyStrLt r.date today1 = true) ∧
    (∀ ts (r : PhOutRow), r ∈ ph_parse_dataframes ts →
        matchesISO r.date = true) := by
  constructor
  · intro today1 raw r h
    have hdate : ∃ r0 ∈ brAggInput today1 raw, r.date = r0.date := by
      unfold br_process_partition at h
      rcases List.mem_append.mp h with h12 | hsub
      rcases List.mem_append.mp h12 with hc | hs
      · exact (brCountry_shape hc).2.2.2
      · exact (brState_shape hs).2.2
      · obtain ⟨r0, h0, _, hr⟩ := brSub_shape hsub
        exact ⟨r0, h0, by rw [hr]; rfl⟩
    obtain ⟨r0, h0, he⟩ := hdate
    obtain ⟨hiso, hok⟩ := mem_brAggInput h0
    unfold brDateOk at hok
    rw [Bool.and_eq_true] at hok
    rw [he]
    exact ⟨hiso, hok.1, hok.2⟩
  · intro ts r h
    unfold ph_parse_dataframes at h
    rcases List.mem_append.mp h with hc | hb
    · obtain ⟨_, _, r0, h0, he⟩ := phCountryRows_shape hc
      rw [he]
      exact mem_phData_iso h0
    · obtain ⟨_, r0, h0, he⟩ := phSubCountry_shape (phRemoveBogus_subset hb)
      rw [he]
      exact mem_phData_iso h0

/-- Counterexample to C7 as stated: the Philippines adapter enforces no
epoch bound, so a record dated `"2019-06-01"` — before any sane epoch and
in particular before the `"2020-01-01"` epoch the Brazil adapter uses —
flows through to the output table. -/
theorem ph_date_before_epoch_in_output_cex :
    ({ date := "2019-06-01", age := "30", sex := "male", province := none,
       region := none, match_string := none, subregion2_code := none,
       locality_code := none, country_code := none, key := some "PH",
       new_confirmed := 1, new_deceased := 0, new_recovered := 0,
       new_hospitalized := 0 } : PhOutRow)
        ∈ ph_parse_dataframes
          [{ province := some "Cebu", region := some "Region VII",
             date := "2019-06-01", age := "30", sex := "male",
             new_confirmed := some 1, new_deceased := none,
             new_recovered := none, new_hospitalized := none }] ∧
      pyStrLt "2019-06-01" "2020-01-01" = true := by
  constructor
  · decide
  · decide

/-! ## Brazil covid19br adapter

`Covid19BrDataSource.parse_dataframes` (br_covid19br.py lines 38-57) is a
row-wise transformation of the renamed table: no aggregation, no
filtering. -/

structure Cov19BrRawRow where
  date : String
  subregion1_code : Option String
  total_persons_vaccinated : Option Int
  total_persons_fully_vaccinated : Option Int
deriving DecidableEq

structure Cov19BrOutRow where
  date : String
  subregion1_code : Option String
  total_persons_vaccinated : Option Int
  total_persons_fully_vaccinated : Int
  total_vaccine_doses_administered : Option Int
  key : Option String
  country_code : String
  subregion2_code : Option String
  locality_code : Option String
deriving DecidableEq

/-- br_covid19br.py lines 52-74 for one row: a missing second-dose count
becomes 0 (line 53), total doses are the sum of the two person counts (line
56, missing first-dose propagating as pandas null arithmetic does), the
date is truncated to ten chars (line 61), `country_code = "BR"` and the
sub-level codes are null (lines 64-67), and `key` is `"BR"` exactly on the
`subregion1_code == "TOTAL"` rows, null elsewhere (lines 64, 70-71). -/
def covid19brRow (r : Cov19BrRawRow) : Cov19BrOutRow :=
  let fully : Int := r.total_persons_fully_vaccinated.getD 0
  { date := r.date.take 10,
    subregion1_code := r.subregion1_code,
    total_persons_vaccinated := r.total_persons_vaccinated,
    total_persons_fully_vaccinated := fully,
    total_vaccine_doses_administered := r.total_persons_vaccinated.map fun v => v + fully,
    key := if r.subregion1_code == some "TOTAL" then some "BR" else none,
    country_code := "BR",
    subregion2_code := none,
    locality_code := none }

/-- `Covid19BrDataSource.parse_dataframes` over the renamed table. -/
def covid19br_parse_dataframes (rows : List Cov19BrRawRow) : List Cov19BrOutRow :=
  rows.map covid19brRow

/-! ### C10: dose total and country key of the covid19br adapter -/

/-- C10: for every input row with a reported `total_persons_vaccinated`,
the output's `total_vaccine_doses_administered` equals
`total_persons_vaccinated` plus `total_persons_fully_vaccinated` with a
missing second-dose count treated as zero, and the `key` is `"BR"` exactly
for the rows whose `subregion1_code` is `"TOTAL"`, all other rows having a
null key. -/
theorem covid19br_doses_and_key (r : Cov19BrRawRow) (v : Int)
    (hv : r.total_persons_vaccinated = some v) :
    (covid19brRow r).total_vaccine_doses_administered
        = some (v + r.total_persons_fully_vaccinated.getD 0) ∧
    ((covid19brRow r).key = some "BR" ↔ r.subregion1_code = some "TOTAL") ∧
    (r.subregion1_code ≠ some "TOTAL" → (covid19brRow r).key = none) := by
  refine ⟨?_, ?_, ?_⟩
  · simp [covid19brRow, hv]
  · by_cases hc : r.subregion1_code = some "TOTAL" <;>
      simp [covid19brRow, hc, beq_iff_eq]
  · intro hc
    simp [covid19brRow, hc, beq_iff_eq]

/-- Witness for C10 at two concrete rows: a state row (`"SP"`, 10 first
doses, missing second doses) and the `"TOTAL"` row (7 + 5). -/
theorem covid19br_doses_and_key_witness :
    (covid19brRow
        { date := "2021-02-01", subregion1_code := some "SP",
          total_persons_vaccinated := some 10,
          total_persons_fully_vaccinated := none }).total_vaccine_doses_administered
      = some 10 ∧
    (covid19brRow
        { date := "2021-02-01", subregion1_code := some "SP",
          total_persons_vaccinated := some 10,
          total_persons_fully_vaccinated := none }).key = none ∧
    (covid19brRow
        { date := "2021-02-01", subregion1_code := some "TOTAL",
          total_persons_vaccinated := some 7,
          total_persons_fully_vaccinated := some 5 }).total_vaccine_doses_administered
      = some 12 ∧
    (covid19brRow
        { date := "2021-02-01", subregion1_code := some "TOTAL",
          total_persons_vaccinated := some 7,
          total_persons_fully_vaccinated := some 5 }).key = some "BR" := by
  have h1 := covid19br_doses_and_key
    { date := "2021-02-01", subregion1_code := some "SP",
      total_persons_vaccinated := some 10,
      total_persons_fully_vaccinated := none } 10 rfl
  have h2 := covid19br_doses_and_key
    { date := "2021-02-01", subregion1_code := some "TOTAL",
      total_persons_vaccinated := some 7,
      total_persons_fully_vaccinated := some 5 } 7 rfl
  refine ⟨h1.1, h1.2.2 (by decide), h2.1, h2.2.1.mpr rfl⟩
